import Mathlib

/-!
Verification of the task-api repository: a shallow embedding of the
Credential & Token Service (app/auth.py) and the Task Ownership Store
(app/crud.py), with the request schemas from app/schemas.py.

Conventions of the embedding:
* machine time is modelled as epoch seconds (`Nat`);
* the database session is a value `DB` holding the persisted `users` and
  `tasks` rows plus the autoincrement counter for task identifiers;
* fallible operations return `Option`/`Except`, mirroring the source
  functions that return `None` or raise the fixed `credentials_exception`;
* the external JWT primitive (python-jose) is modelled symbolically: a
  token records its claims, expiry, the secret it was signed with and the
  algorithm name; decoding succeeds exactly when secret and algorithm
  match and the expiry has not elapsed, per the contract the spec states
  for this collaborator;
* the external password-hash primitive (passlib bcrypt) is passed in as a
  function argument `verify` to `authenticate_user`, since its
  implementation is an external collaborator.
-/

namespace TaskApi

/-! ## Data model (app/models.py is absent from src/; enumerations and
column defaults are modelled from the spec) -/

/-- Task status enumeration \x7btodo, in_progress, done\x7d (imported by
app/schemas.py from app.models). -/
inductive TaskStatus where
  | todo
  | in_progress
  | done
  deriving DecidableEq, Repr

/-- Task priority enumeration \x7blow, medium, high\x7d (imported by
app/schemas.py from app.models). -/
inductive TaskPriority where
  | low
  | medium
  | high
  deriving DecidableEq, Repr

/-- Modelled from the spec: the Task ORM row (app/models.py is absent from
src/): title, optional description, status, priority, owning user id,
creation and last-updated timestamps, and a surrogate identifier. -/
structure Task where
  id : Nat
  title : String
  description : Option String
  status : TaskStatus
  priority : TaskPriority
  user_id : Nat
  created_at : Nat
  updated_at : Nat
  deriving DecidableEq, Repr

/-- Modelled from the spec: the User ORM row (app/models.py is absent from
src/): unique email, password hash, creation timestamp, surrogate id. -/
structure User where
  id : Nat
  email : String
  hashed_password : String
  created_at : Nat
  deriving DecidableEq, Repr

/-- The persisted state a database session exposes: user rows, task rows,
and the autoincrement counter from which the next task id is drawn. -/
structure DB where
  users : List User
  tasks : List Task
  nextTaskId : Nat
  deriving DecidableEq, Repr

/-! ## Request schemas (app/schemas.py) -/

/-- `TaskCreate` (app/schemas.py): title, optional description, priority
defaulting to `medium` when the caller supplies none. -/
structure TaskCreate where
  title : String
  description : Option String := none
  priority : TaskPriority := TaskPriority.medium
  deriving DecidableEq, Repr

/-- `TaskUpdate` (app/schemas.py): every field optional; an outer `some`
means the field was explicitly present in the request (pydantic
`model_dump(exclude_unset=True)` keeps exactly the explicitly set fields).
For `description`, whose column is nullable, the inner `Option` carries an
explicit null. `TaskUpdate` has no owner or id field at all. -/
structure TaskUpdate where
  title : Option String := none
  description : Option (Option String) := none
  status : Option TaskStatus := none
  priority : Option TaskPriority := none
  deriving DecidableEq, Repr

/-! ## User CRUD (app/crud.py) -/

/-- `get_user_by_email` (app/crud.py): first user row whose email equals
the given one. -/
def get_user_by_email (db : DB) (email : String) : Option User :=
  db.users.find? (fun u => u.email = email)

/-- `authenticate_user` (app/crud.py): look the email up; if no user,
return nothing; if the password does not verify against the stored hash,
return nothing; otherwise return the user. The hash primitive is the
external collaborator `verify`. -/
def authenticate_user (verify : String → String → Bool) (db : DB)
    (email password : String) : Option User :=
  match get_user_by_email db email with
  | none => none
  | some user =>
    if verify password user.hashed_password then some user else none

/-! ## Task CRUD (app/crud.py) -/

/-- `get_tasks` (app/crud.py): the user's tasks in stored order, paged by
`skip`/`limit` (the query filters on `user_id`, then offsets, then
limits). -/
def get_tasks (db : DB) (user_id skip limit : Nat) : List Task :=
  ((db.tasks.filter (fun t => t.user_id = user_id)).drop skip).take limit

/-- `get_task` (app/crud.py): first task row whose id equals `task_id` and
whose owner equals `user_id`; both filters are applied in one query. -/
def get_task (db : DB) (task_id user_id : Nat) : Option Task :=
  db.tasks.find? (fun t => t.id = task_id && t.user_id = user_id)

/-- `create_task` (app/crud.py): build a row from the creation schema and
the owner id and persist it. The parts the ORM model supplies are modelled
from the spec (app/models.py is absent from src/): the autoincrement id,
status defaulting to `todo`, and creation/update timestamps both stamped
with the current instant. -/
def create_task (db : DB) (task : TaskCreate) (user_id now : Nat) :
    Task × DB :=
  let db_task : Task :=
    { id := db.nextTaskId
      title := task.title
      description := task.description
      status := TaskStatus.todo
      priority := task.priority
      user_id := user_id
      created_at := now
      updated_at := now }
  (db_task,
   { db with
      tasks := db.tasks ++ [db_task]
      nextTaskId := db.nextTaskId + 1 })

/-- The field loop of `update_task` (app/crud.py): `setattr` each field
that was explicitly present in `model_dump(exclude_unset=True)`, leaving
the rest untouched. -/
def applyTaskUpdate (t : Task) (u : TaskUpdate) : Task :=
  let t1 := match u.title with
    | none => t
    | some v => { t with title := v }
  let t2 := match u.description with
    | none => t1
    | some v => { t1 with description := v }
  let t3 := match u.status with
    | none => t2
    | some v => { t2 with status := v }
  match u.priority with
  | none => t3
  | some v => { t3 with priority := v }

/-- `update_task` (app/crud.py): ownership-gated lookup via `get_task`;
on a hit, apply exactly the explicitly supplied fields and persist.
The refresh of the last-updated timestamp to the current instant is
modelled from the spec (the ORM column behaviour lives in app/models.py,
absent from src/). -/
def update_task (db : DB) (task_id : Nat) (task : TaskUpdate)
    (user_id now : Nat) : Option (Task × DB) :=
  match get_task db task_id user_id with
  | none => none
  | some db_task =>
    let updated := { applyTaskUpdate db_task task with updated_at := now }
    some (updated,
      { db with
          tasks := db.tasks.map
            (fun t => if t.id = db_task.id then updated else t) })

/-- `delete_task` (app/crud.py): ownership-gated lookup via `get_task`;
on a hit, remove the row (the id is the primary key, so removing every row
with that id removes exactly the found row) and return its prior state. -/
def delete_task (db : DB) (task_id user_id : Nat) : Option (Task × DB) :=
  match get_task db task_id user_id with
  | none => none
  | some db_task =>
    some (db_task,
      { db with tasks := db.tasks.filter (fun t => t.id ≠ db_task.id) })

/-! ## Credential & Token Service (app/auth.py) -/

/-- `SECRET_KEY` (app/auth.py line 19). -/
def SECRET_KEY : String := "your-secret-key-here-change-in-production"

/-- `ALGORITHM` (app/auth.py line 20). -/
def ALGORITHM : String := "HS256"

/-- `ACCESS_TOKEN_EXPIRE_MINUTES` (app/auth.py line 21). -/
def ACCESS_TOKEN_EXPIRE_MINUTES : Nat := 30

/-- Symbolic model of an encoded JWT: either a structurally well-formed
signed token carrying its claims, absolute expiry, signing secret and
algorithm name, or a malformed string that no decode accepts. -/
inductive Jwt where
  | signed (claims : List (String × String)) (exp : Nat)
      (secret : String) (alg : String)
  | malformed (raw : String)
  deriving DecidableEq, Repr

/-- The single error the JWT collaborator reports (`JWTError`, which also
covers its expired-signature subclass). -/
inductive JWTError where
  | jwtError
  deriving DecidableEq, Repr

/-- Contract of `jwt.decode` (external collaborator, python-jose) as the
spec states it: decoding succeeds exactly when the token is structurally
well formed, was signed with the expected secret and algorithm, and its
expiry instant has not been reached (valid strictly before `exp`, rejected
at or after `exp`). -/
def jwtDecode (token : Jwt) (secret alg : String) (now : Nat) :
    Except JWTError (List (String × String)) :=
  match token with
  | Jwt.malformed _ => Except.error JWTError.jwtError
  | Jwt.signed claims exp s a =>
    if s = secret ∧ a = alg ∧ now < exp then Except.ok claims
    else Except.error JWTError.jwtError

/-- `create_access_token` (app/auth.py): copy the payload, compute the
absolute expiry as now plus the supplied delta, or now plus 15 minutes
when the caller supplies none, and encode with the fixed secret and
algorithm. Deltas are in seconds. -/
def create_access_token (data : List (String × String))
    (expires_delta : Option Nat) (now : Nat) : Jwt :=
  let expire := now + (match expires_delta with
    | some d => d
    | none => 15 * 60)
  Jwt.signed data expire SECRET_KEY ALGORITHM

/-- The fixed `HTTPException` shape used for authentication failures. -/
structure HTTPError where
  status_code : Nat
  detail : String
  www_authenticate : Option String
  deriving DecidableEq, Repr

/-- The single `credentials_exception` value built in `get_current_user`
(app/auth.py lines 94-98). -/
def credentials_exception : HTTPError :=
  { status_code := 401
    detail := "Could not validate credentials"
    www_authenticate := some "Bearer" }

/-- `TokenData` (app/schemas.py). -/
structure TokenData where
  email : Option String
  deriving DecidableEq, Repr

/-- `verify_token` (app/auth.py): decode with the fixed secret and
algorithm; on any `JWTError` raise the supplied credentials exception;
extract the subject claim and raise the same exception when it is absent;
otherwise return it as `TokenData`. -/
def verify_token (token : Jwt) (credentialsException : HTTPError)
    (now : Nat) : Except HTTPError TokenData :=
  match jwtDecode token SECRET_KEY ALGORITHM now with
  | Except.error _ => Except.error credentialsException
  | Except.ok payload =>
    match payload.lookup "sub" with
    | none => Except.error credentialsException
    | some email => Except.ok { email := some email }

/-- `get_current_user` (app/auth.py): verify the token with the fixed
credentials exception, then resolve the claimed email to a user row;
absence of the user raises the very same exception. The `none` branch on
the optional email is unreachable, since `verify_token` only succeeds
with a present subject; it resolves to no user, as a null email matches
no row. -/
def get_current_user (token : Jwt) (db : DB) (now : Nat) :
    Except HTTPError User :=
  match verify_token token credentials_exception now with
  | Except.error e => Except.error e
  | Except.ok token_data =>
    match token_data.email with
    | none => Except.error credentials_exception
    | some email =>
      match get_user_by_email db email with
      | none => Except.error credentials_exception
      | some user => Except.ok user

/-- Modelled from the spec: the login endpoint (app/routers/auth.py is
absent from src/) authenticates the credentials and issues a token whose
subject is the user's email, requesting a lifetime of
`ACCESS_TOKEN_EXPIRE_MINUTES` (30) minutes. -/
def login_issue_token (email : String) (now : Nat) : Jwt :=
  create_access_token [("sub", email)]
    (some (ACCESS_TOKEN_EXPIRE_MINUTES * 60)) now

/-! ## Sample data for concrete evaluation -/

/-- A registered user, as in the spec's end-to-end scenario. -/
def sampleUser : User :=
  { id := 1, email := "a@example.com", hashed_password := "H", created_at := 5 }

/-- A task owned by `sampleUser`. -/
def sampleTaskA : Task :=
  { id := 1, title := "Buy milk", description := none
    status := TaskStatus.todo, priority := TaskPriority.medium
    user_id := 1, created_at := 10, updated_at := 10 }

/-- A database holding `sampleUser` and `sampleTaskA`. -/
def sampleDb : DB :=
  { users := [sampleUser], tasks := [sampleTaskA], nextTaskId := 2 }

/-- `sampleDb` after `sampleTaskA` has been deleted. -/
def sampleDbDeleted : DB :=
  { users := [sampleUser], tasks := [], nextTaskId := 2 }

/-- An update payload rewriting title and status only. -/
def sampleUpd : TaskUpdate :=
  { title := some "New", description := none
    status := some TaskStatus.done, priority := none }

/-- `sampleTaskA` after `sampleUpd` has been applied at instant 99. -/
def sampleTaskUpdated : Task :=
  { id := 1, title := "New", description := none
    status := TaskStatus.done, priority := TaskPriority.medium
    user_id := 1, created_at := 10, updated_at := 99 }

/-- `sampleDb` after the update to `sampleTaskUpdated`. -/
def sampleDbUpdated : DB :=
  { users := [sampleUser], tasks := [sampleTaskUpdated], nextTaskId := 2 }

/-! ## Helper lemmas -/

/-- Each field of the row after the `setattr` loop: an explicitly supplied
field takes its supplied value, every other field keeps its old value. -/
theorem applyTaskUpdate_fields (t : Task) (u : TaskUpdate) :
    (applyTaskUpdate t u).title = u.title.getD t.title ∧
    (applyTaskUpdate t u).description = u.description.getD t.description ∧
    (applyTaskUpdate t u).status = u.status.getD t.status ∧
    (applyTaskUpdate t u).priority = u.priority.getD t.priority ∧
    (applyTaskUpdate t u).id = t.id ∧
    (applyTaskUpdate t u).user_id = t.user_id ∧
    (applyTaskUpdate t u).created_at = t.created_at ∧
    (applyTaskUpdate t u).updated_at = t.updated_at := by
  obtain ⟨ot, od, os, op⟩ := u
  cases ot <;> cases od <;> cases os <;> cases op <;>
    simp [applyTaskUpdate]

/-- `verify_token` errors only with the very exception it was handed. -/
theorem verify_token_error_eq (token : Jwt) (cexc : HTTPError) (now : Nat)
    (e : HTTPError) (h : verify_token token cexc now = Except.error e) :
    e = cexc := by
  unfold verify_token at h
  split at h
  · exact (Except.error.inj h).symm
  · split at h
    · exact (Except.error.inj h).symm
    · exact absurd h (by simp)

/-- With pairwise-distinct task ids, two stored tasks with the same id are
the same row. -/
theorem task_id_inj {db : DB}
    (hpw : db.tasks.Pairwise (fun a b => a.id ≠ b.id))
    {x t : Task} (hx : x ∈ db.tasks) (ht : t ∈ db.tasks)
    (hid : x.id = t.id) : x = t := by
  by_contra hne
  exact List.Pairwise.forall (fun a b h => Ne.symm h) hpw hx ht hne hid

/-! ## Claims -/

/-- C1. Ownership isolation: for distinct owners A and B and a task t
owned by A (in a database whose task ids are pairwise distinct, as the
primary key guarantees), Get, Update and Delete by B on t's id all yield
NotFound, and List for B never includes t, for any offset/limit. -/
theorem ownership_isolation (db : DB) (A B : Nat) (t : Task)
    (upd : TaskUpdate) (skip limit now : Nat)
    (hpw : db.tasks.Pairwise (fun a b => a.id ≠ b.id))
    (hAB : A ≠ B) (ht : t ∈ db.tasks) (hown : t.user_id = A) :
    get_task db t.id B = none ∧
    update_task db t.id upd B now = none ∧
    delete_task db t.id B = none ∧
    t ∉ get_tasks db B skip limit := by
  have hget : get_task db t.id B = none := by
    unfold get_task
    rw [List.find?_eq_none]
    intro x hx
    simp only [Bool.and_eq_true, decide_eq_true_eq, not_and]
    intro hid huser
    have hxt : x = t := task_id_inj hpw hx ht hid
    rw [hxt, hown] at huser
    exact hAB huser
  refine ⟨hget, ?_, ?_, ?_⟩
  · unfold update_task
    rw [hget]
  · unfold delete_task
    rw [hget]
  · intro hmem
    unfold get_tasks at hmem
    have h1 := List.mem_of_mem_take hmem
    have h2 := List.mem_of_mem_drop h1
    have h3 := (List.mem_filter.mp h2).2
    simp only [decide_eq_true_eq] at h3
    rw [hown] at h3
    exact hAB h3

/-- Witness for C1 at a concrete database: user 2 cannot see, update,
delete or list user 1's task. -/
theorem ownership_isolation_witness :
    (sampleDb.tasks.Pairwise (fun a b => a.id ≠ b.id) ∧ (1 : Nat) ≠ 2 ∧
      sampleTaskA ∈ sampleDb.tasks ∧ sampleTaskA.user_id = 1) ∧
    (get_task sampleDb sampleTaskA.id 2 = none ∧
      update_task sampleDb sampleTaskA.id
        { title := none, description := none
          status := none, priority := none } 2 99 = none ∧
      delete_task sampleDb sampleTaskA.id 2 = none ∧
      sampleTaskA ∉ get_tasks sampleDb 2 0 100) :=
  ⟨⟨by decide, by decide, by decide, by decide⟩,
    ownership_isolation sampleDb 1 2 sampleTaskA
      { title := none, description := none, status := none, priority := none }
      0 100 99 (by decide) (by decide) (by decide) (by decide)⟩

/-- C2. Uniform authentication error: whenever token verification followed
by user resolution fails — malformed token, wrong secret or algorithm,
expired token, missing subject claim, or a valid token whose email matches
no user — the resulting error is the single fixed credentials exception;
no failure cause is distinguishable through the result. -/
theorem auth_error_uniform (token : Jwt) (db : DB) (now : Nat)
    (e : HTTPError) (h : get_current_user token db now = Except.error e) :
    e = credentials_exception := by
  unfold get_current_user at h
  split at h
  next e2 hv =>
    have he : e2 = e := Except.error.inj h
    rw [← he]
    exact verify_token_error_eq token credentials_exception now e2 hv
  next td hv =>
    split at h
    · exact (Except.error.inj h).symm
    · split at h
      · exact (Except.error.inj h).symm
      · exact absurd h (by simp)

/-- Witness for C2: a malformed token fails with exactly the fixed
credentials exception. -/
theorem auth_error_uniform_witness :
    get_current_user (Jwt.malformed "x") sampleDb 0
        = Except.error credentials_exception ∧
    credentials_exception = credentials_exception :=
  ⟨rfl,
    auth_error_uniform (Jwt.malformed "x") sampleDb 0
      credentials_exception rfl⟩

/-- C3. Token round-trip with expiry: issuing a token for a claim set
carrying a subject email with a positive lifetime and verifying it
succeeds with that email at any instant strictly before issuance plus the
lifetime, and fails with the uniform credentials exception at or after
issuance plus the lifetime. -/
theorem token_roundtrip (data : List (String × String)) (email : String)
    (ttl now tv : Nat) (hsub : data.lookup "sub" = some email)
    (httl : 0 < ttl) :
    (tv < now + ttl →
      verify_token (create_access_token data (some ttl) now)
          credentials_exception tv
        = Except.ok { email := some email }) ∧
    (now + ttl ≤ tv →
      verify_token (create_access_token data (some ttl) now)
          credentials_exception tv
        = Except.error credentials_exception) := by
  unfold verify_token create_access_token jwtDecode
  constructor
  · intro h
    simp [h, hsub]
  · intro h
    have hlt : ¬ tv < now + ttl := Nat.not_lt.mpr h
    simp [hlt]

/-- Witness for C3: a token for the sample email with a 60-second
lifetime, issued at 100, checked at 30. -/
theorem token_roundtrip_witness :
    (([("sub", "a@example.com")] : List (String × String)).lookup "sub"
        = some "a@example.com" ∧ (0 : Nat) < 60) ∧
    ((30 < 100 + 60 →
      verify_token (create_access_token [("sub", "a@example.com")]
          (some 60) 100) credentials_exception 30
        = Except.ok { email := some "a@example.com" }) ∧
     (100 + 60 ≤ 30 →
      verify_token (create_access_token [("sub", "a@example.com")]
          (some 60) 100) credentials_exception 30
        = Except.error credentials_exception)) :=
  ⟨⟨by decide, by decide⟩,
    token_roundtrip [("sub", "a@example.com")] "a@example.com" 60 100 30
      (by decide) (by decide)⟩

/-- C4. Partial update semantics: for a task the ownership-gated lookup
finds for its owner, Update succeeds, applies exactly the explicitly
supplied fields (any subset, including the empty one, in which case every
business field keeps its old value), leaves id, owner and creation
timestamp untouched, persists the row, and sets the updated-timestamp to
the current instant, which is ≥ the previous one under a monotone
clock. -/
theorem update_applies_exact_fields (db : DB) (t : Task)
    (upd : TaskUpdate) (now : Nat)
    (hfind : get_task db t.id t.user_id = some t)
    (hts : t.updated_at ≤ now) :
    ∃ t2 db2, update_task db t.id upd t.user_id now = some (t2, db2) ∧
      t2.title = upd.title.getD t.title ∧
      t2.description = upd.description.getD t.description ∧
      t2.status = upd.status.getD t.status ∧
      t2.priority = upd.priority.getD t.priority ∧
      t2.id = t.id ∧ t2.user_id = t.user_id ∧
      t2.created_at = t.created_at ∧
      t2.updated_at = now ∧ t.updated_at ≤ t2.updated_at ∧
      t2 ∈ db2.tasks := by
  obtain ⟨hti, hde, hst, hpr, hid, hui, hcr, hup⟩ :=
    applyTaskUpdate_fields t upd
  have hmem : t ∈ db.tasks := List.mem_of_find?_eq_some hfind
  unfold update_task
  rw [hfind]
  refine ⟨_, _, rfl, hti, hde, hst, hpr, hid, hui, hcr, rfl, hts, ?_⟩
  refine List.mem_map.mpr ⟨t, hmem, ?_⟩
  simp

/-- Witness for C4: the empty field set leaves every business field of the
sample task unchanged and still refreshes the timestamp. -/
theorem update_applies_exact_fields_witness :
    (get_task sampleDb sampleTaskA.id sampleTaskA.user_id
        = some sampleTaskA ∧ sampleTaskA.updated_at ≤ 99) ∧
    (∃ t2 db2,
      update_task sampleDb sampleTaskA.id
          { title := none, description := none
            status := none, priority := none }
          sampleTaskA.user_id 99 = some (t2, db2) ∧
      t2.title = (none : Option String).getD sampleTaskA.title ∧
      t2.description =
        (none : Option (Option String)).getD sampleTaskA.description ∧
      t2.status = (none : Option TaskStatus).getD sampleTaskA.status ∧
      t2.priority =
        (none : Option TaskPriority).getD sampleTaskA.priority ∧
      t2.id = sampleTaskA.id ∧ t2.user_id = sampleTaskA.user_id ∧
      t2.created_at = sampleTaskA.created_at ∧
      t2.updated_at = 99 ∧ sampleTaskA.updated_at ≤ t2.updated_at ∧
      t2 ∈ db2.tasks) :=
  ⟨⟨by decide, by decide⟩,
    update_applies_exact_fields sampleDb sampleTaskA
      { title := none, description := none, status := none, priority := none }
      99 (by decide) (by decide)⟩

/-- C5. Create postcondition and round-trip: in a database whose stored
task ids are all below the autoincrement counter, Create returns a task
with status `todo`, the schema-defaulted priority `medium` when none was
supplied, identical creation and update timestamps, the freshly generated
identifier and the caller as owner; a subsequent Get by the owner with
that identifier returns exactly the created task. -/
theorem create_postcondition (db : DB) (tc : TaskCreate) (uid now : Nat)
    (hwf : ∀ x ∈ db.tasks, x.id < db.nextTaskId) :
    ∃ nt db2, create_task db tc uid now = (nt, db2) ∧
      nt.status = TaskStatus.todo ∧
      nt.priority = tc.priority ∧
      (∀ s d, ({ title := s, description := d } : TaskCreate).priority
        = TaskPriority.medium) ∧
      nt.created_at = now ∧ nt.updated_at = now ∧
      nt.created_at = nt.updated_at ∧
      nt.id = db.nextTaskId ∧ nt.user_id = uid ∧
      nt.title = tc.title ∧ nt.description = tc.description ∧
      get_task db2 nt.id uid = some nt := by
  refine ⟨_, _, rfl, rfl, rfl, fun s d => rfl, rfl, rfl, rfl, rfl, rfl,
    rfl, rfl, ?_⟩
  unfold get_task
  simp only [List.find?_append]
  have h1 : db.tasks.find?
      (fun x => x.id = db.nextTaskId && x.user_id = uid) = none := by
    rw [List.find?_eq_none]
    intro x hx
    simp only [Bool.and_eq_true, decide_eq_true_eq, not_and]
    intro hid
    exact absurd hid (Nat.ne_of_lt (hwf x hx))
  rw [h1]
  simp

/-- Witness for C5: creating a task titled X for the sample user. -/
theorem create_postcondition_witness :
    (∀ x ∈ sampleDb.tasks, x.id < sampleDb.nextTaskId) ∧
    (∃ nt db2,
      create_task sampleDb { title := "X" } 1 20 = (nt, db2) ∧
      nt.status = TaskStatus.todo ∧
      nt.priority = ({ title := "X" } : TaskCreate).priority ∧
      (∀ s d, ({ title := s, description := d } : TaskCreate).priority
        = TaskPriority.medium) ∧
      nt.created_at = 20 ∧ nt.updated_at = 20 ∧
      nt.created_at = nt.updated_at ∧
      nt.id = sampleDb.nextTaskId ∧ nt.user_id = 1 ∧
      nt.title = ({ title := "X" } : TaskCreate).title ∧
      nt.description = ({ title := "X" } : TaskCreate).description ∧
      get_task db2 nt.id 1 = some nt) :=
  ⟨by decide,
    create_postcondition sampleDb { title := "X" } 1 20 (by decide)⟩

/-- C6. Delete semantics: when Delete succeeds for an owner it returns the
exact row the ownership-gated lookup found, in its prior state; the row is
removed outright from the store (hard delete: the surviving rows are
exactly those with a different id, no tombstone remains), and a subsequent
Get by the same owner with the same identifier yields NotFound. -/
theorem delete_then_get (db : DB) (task_id uid : Nat) (t : Task)
    (db2 : DB) (h : delete_task db task_id uid = some (t, db2)) :
    get_task db task_id uid = some t ∧
    t ∉ db2.tasks ∧
    db2.tasks = db.tasks.filter (fun x => x.id ≠ t.id) ∧
    get_task db2 task_id uid = none := by
  unfold delete_task at h
  cases hg : get_task db task_id uid with
  | none =>
    rw [hg] at h
    exact absurd h (by simp)
  | some dt =>
    rw [hg] at h
    simp only [Option.some.injEq, Prod.mk.injEq] at h
    obtain ⟨hdt, hdb⟩ := h
    have hgf : db.tasks.find?
        (fun x => x.id = task_id && x.user_id = uid) = some dt := hg
    have hpred := List.find?_some hgf
    simp only [Bool.and_eq_true, decide_eq_true_eq] at hpred
    subst hdt
    refine ⟨rfl, ?_, ?_, ?_⟩
    · intro hmem
      rw [← hdb] at hmem
      have := (List.mem_filter.mp hmem).2
      simp at this
    · rw [← hdb]
    · unfold get_task
      rw [List.find?_eq_none]
      intro x hx
      rw [← hdb] at hx
      have hne := (List.mem_filter.mp hx).2
      simp only [ne_eq, decide_not, Bool.not_eq_eq_eq_not, Bool.not_true,
        decide_eq_false_iff_not] at hne
      simp only [Bool.and_eq_true, decide_eq_true_eq, not_and]
      intro hid
      rw [hpred.1] at hne
      exact absurd hid hne

/-- Witness for C6: deleting the sample task and probing it again. -/
theorem delete_then_get_witness :
    delete_task sampleDb 1 1 = some (sampleTaskA, sampleDbDeleted) ∧
    (get_task sampleDb 1 1 = some sampleTaskA ∧
      sampleTaskA ∉ sampleDbDeleted.tasks ∧
      sampleDbDeleted.tasks
        = sampleDb.tasks.filter (fun x => x.id ≠ sampleTaskA.id) ∧
      get_task sampleDbDeleted 1 1 = none) :=
  ⟨by decide,
    delete_then_get sampleDb 1 1 sampleTaskA sampleDbDeleted (by decide)⟩

/-- C7. Owner immutability: whatever fields an update payload contains,
a successful Update returns a row whose owner is still the authenticated
caller and whose surrogate identifier is still the requested one, and (in
a database with pairwise-distinct task ids) every row stored afterwards
keeps the id and owner of a row stored before, so no sequence of updates
can ever reassign a task's owner or identifier. -/
theorem owner_immutable_update (db : DB) (task_id : Nat)
    (upd : TaskUpdate) (uid now : Nat) (t2 : Task) (db2 : DB)
    (hpw : db.tasks.Pairwise (fun a b => a.id ≠ b.id))
    (h : update_task db task_id upd uid now = some (t2, db2)) :
    t2.user_id = uid ∧ t2.id = task_id ∧
    ∀ x ∈ db2.tasks, ∃ y ∈ db.tasks, y.id = x.id ∧
      y.user_id = x.user_id := by
  unfold update_task at h
  cases hg : get_task db task_id uid with
  | none =>
    rw [hg] at h
    exact absurd h (by simp)
  | some dt =>
    rw [hg] at h
    simp only [Option.some.injEq, Prod.mk.injEq] at h
    obtain ⟨ht2, hdb⟩ := h
    have hgf : db.tasks.find?
        (fun x => x.id = task_id && x.user_id = uid) = some dt := hg
    have hpred := List.find?_some hgf
    simp only [Bool.and_eq_true, decide_eq_true_eq] at hpred
    have hdtm : dt ∈ db.tasks := List.mem_of_find?_eq_some hgf
    obtain ⟨-, -, -, -, hid, hui, -, -⟩ := applyTaskUpdate_fields dt upd
    have h2ui : t2.user_id = uid := by rw [← ht2]; rw [hui]; exact hpred.2
    have h2id : t2.id = task_id := by rw [← ht2]; rw [hid]; exact hpred.1
    refine ⟨h2ui, h2id, ?_⟩
    intro x hx
    rw [← hdb] at hx
    obtain ⟨y, hy, hyx⟩ := List.mem_map.mp hx
    by_cases hc : y.id = dt.id
    · have hyd : y = dt := task_id_inj hpw hy hdtm hc
      rw [if_pos hc] at hyx
      refine ⟨y, hy, ?_, ?_⟩
      · rw [← hyx, ht2, h2id, hyd]
        exact hpred.1
      · rw [← hyx, ht2, h2ui, hyd]
        exact hpred.2
    · rw [if_neg hc] at hyx
      exact ⟨y, hy, by rw [hyx], by rw [hyx]⟩

/-- Witness for C7: an update that rewrites title and status leaves owner
and id in place, on the concrete database. -/
theorem owner_immutable_update_witness :
    (sampleDb.tasks.Pairwise (fun a b => a.id ≠ b.id) ∧
      update_task sampleDb 1 sampleUpd 1 99
        = some (sampleTaskUpdated, sampleDbUpdated)) ∧
    (sampleTaskUpdated.user_id = 1 ∧ sampleTaskUpdated.id = 1 ∧
      ∀ x ∈ sampleDbUpdated.tasks,
        ∃ y ∈ sampleDb.tasks, y.id = x.id ∧ y.user_id = x.user_id) :=
  ⟨⟨by decide, by decide⟩,
    owner_immutable_update sampleDb 1 sampleUpd 1 99
      sampleTaskUpdated sampleDbUpdated (by decide) (by decide)⟩

/-- C8. Default token lifetime: issuing a token with no lifetime supplied
encodes an absolute expiry of now plus 15 minutes; the login endpoint
requests `ACCESS_TOKEN_EXPIRE_MINUTES` = 30 minutes; and in both cases the
encoded string is signed with the fixed shared secret and the fixed
algorithm. -/
theorem default_token_lifetime (data : List (String × String))
    (email : String) (now : Nat) :
    create_access_token data none now
        = Jwt.signed data (now + 15 * 60) SECRET_KEY ALGORITHM ∧
    ACCESS_TOKEN_EXPIRE_MINUTES = 30 ∧
    login_issue_token email now
        = Jwt.signed [("sub", email)] (now + 30 * 60) SECRET_KEY
            ALGORITHM :=
  ⟨rfl, rfl, rfl⟩

/-- C9. Update applies an explicitly supplied title or description
verbatim, with no re-validation: for a task the ownership-gated lookup
finds for its owner, an update carrying any title string (the empty string
included) and any description value (explicit null included) yields a task
holding exactly those values. -/
theorem update_no_revalidation (db : DB) (t : Task) (s : String)
    (d : Option String) (now : Nat)
    (hfind : get_task db t.id t.user_id = some t) :
    ∃ t2 db2,
      update_task db t.id
          { title := some s, description := some d
            status := none, priority := none } t.user_id now
        = some (t2, db2) ∧
      t2.title = s ∧ t2.description = d := by
  obtain ⟨hti, hde, -, -, -, -, -, -⟩ := applyTaskUpdate_fields t
    { title := some s, description := some d
      status := none, priority := none }
  unfold update_task
  rw [hfind]
  exact ⟨_, _, rfl, hti, hde⟩

/-- Witness for C9: updating the sample task with an empty-string title
yields a task whose title is the empty string. -/
theorem update_no_revalidation_witness :
    get_task sampleDb sampleTaskA.id sampleTaskA.user_id
        = some sampleTaskA ∧
    (∃ t2 db2,
      update_task sampleDb sampleTaskA.id
          { title := some "", description := some none
            status := none, priority := none } sampleTaskA.user_id 99
        = some (t2, db2) ∧
      t2.title = "" ∧ t2.description = none) :=
  ⟨by decide,
    update_no_revalidation sampleDb sampleTaskA "" none 99 (by decide)⟩

/-- C10. Credential authentication fails uniformly: whether the email
matches no registered user, or it matches one whose stored hash the
password fails to verify against, authentication returns the very same
value — no user — so a login failure does not reveal whether the email is
registered. -/
theorem authenticate_uniform_failure (verify : String → String → Bool)
    (db : DB) (email password : String)
    (h : get_user_by_email db email = none ∨
      ∃ u, get_user_by_email db email = some u ∧
        verify password u.hashed_password = false) :
    authenticate_user verify db email password = none := by
  unfold authenticate_user
  rcases h with h | ⟨u, hu, hv⟩
  · rw [h]
  · rw [hu]
    simp [hv]

/-- Witness for C10: a wrong password for the registered sample email
yields the same result, no user, as an unknown email would. -/
theorem authenticate_uniform_failure_witness :
    (get_user_by_email sampleDb "a@example.com" = some sampleUser ∧
      (fun p hsh => p == hsh) "wrong" sampleUser.hashed_password
        = false) ∧
    authenticate_user (fun p hsh => p == hsh) sampleDb "a@example.com"
        "wrong" = none :=
  ⟨⟨by decide, by decide⟩,
    authenticate_uniform_failure (fun p hsh => p == hsh) sampleDb
      "a@example.com" "wrong"
      (Or.inr ⟨sampleUser, by decide, by decide⟩)⟩

end TaskApi
